import Mathlib

/-!
Verification of the `cofacts/worker` rumor-classification pipeline
(`src/src/index.ts`), as a shallow embedding in Lean 4.

The embedding follows the source file:
- dataset normalization in the `load-langfuse-dataset` step
  (src/index.ts:67-72), over a small model of JavaScript values with
  truthiness and optional chaining;
- the poll body of the `poll-batch-completion` step
  (src/index.ts:159-202), including line-by-line decoding of the
  result file and the error objects thrown in each branch;
- the `evaluate-and-log-results` step (src/index.ts:206-311),
  including the Langfuse trace calls modelled as an ordered event log
  and the unguarded JavaScript division used for `accuracy`.

The Stage Executor (Cloudflare `step.do`) is not part of this
repository; where a claim needs it, it is modelled explicitly and the
model is documented at its definition.
-/

namespace CofactsWorker

/-! ## JavaScript value model (for the loosely-typed dataset loader) -/

/-- A JavaScript value, restricted to the shapes the dataset loader can
meet: `undefined`, `null`, booleans, numbers, strings and plain objects
(ordered field lists). -/
inductive JsValue where
  | undefined : JsValue
  | null : JsValue
  | boolean : Bool → JsValue
  | number : ℚ → JsValue
  | str : String → JsValue
  | obj : List (String × JsValue) → JsValue

/-- JavaScript truthiness: `undefined`, `null`, `false`, `0` and the
empty string are falsy; every object is truthy. -/
def JsValue.truthy : JsValue → Bool
  | .undefined => false
  | .null => false
  | .boolean b => b
  | .number q => q ≠ 0
  | .str s => s ≠ ""
  | .obj _ => true

/-- Optional chaining `v?.k`: `undefined` when `v` is `undefined` or
`null`; field lookup on an object (first binding wins, missing fields
give `undefined`); `undefined` on the remaining primitives, which carry
no `text` or `category` property. -/
def JsValue.optChain (v : JsValue) (k : String) : JsValue :=
  match v with
  | .undefined => .undefined
  | .null => .undefined
  | .obj fields => (fields.lookup k).getD .undefined
  | _ => .undefined

/-- JavaScript `a || b`: `a` when `a` is truthy, otherwise `b`. -/
def jsOr (a b : JsValue) : JsValue :=
  if a.truthy then a else b

/-- One raw entry of the Langfuse dataset, before normalization
(src/index.ts:67-72 reads `item.id`, `item.input`,
`item.expectedOutput`, `item.metadata` from an `any`-typed item). -/
structure RawDatasetEntry where
  id : String
  input : JsValue
  expectedOutput : JsValue
  metadata : JsValue

/-- The normalized item produced by the loader. The source annotates
the result as `DatasetItem`, but the expressions
`item.input?.text || item.input` and
`item.expectedOutput?.category || item.expectedOutput` can produce any
JavaScript value, so the fields stay `JsValue` here. -/
structure NormalizedItem where
  id : String
  text : JsValue
  expectedCategory : JsValue
  metadata : JsValue

/-- Normalization of one dataset entry, from src/index.ts:67-72:
`text = item.input?.text || item.input` and
`expectedCategory = item.expectedOutput?.category || item.expectedOutput`. -/
def normalizeEntry (item : RawDatasetEntry) : NormalizedItem :=
  { id := item.id
    text := jsOr (item.input.optChain "text") item.input
    expectedCategory := jsOr (item.expectedOutput.optChain "category") item.expectedOutput
    metadata := item.metadata }

/-! ## JavaScript numbers and division (for `accuracy`) -/

/-- The result of a JavaScript arithmetic expression over numbers, as
far as the pipeline needs it: a finite value, `Infinity`, or `NaN`. -/
inductive JsNumber where
  | nan : JsNumber
  | infinity : JsNumber
  | num : ℚ → JsNumber
deriving DecidableEq, Repr

/-- JavaScript division `a / b` of two nonnegative counters:
`0 / 0 = NaN`, `a / 0 = Infinity` for `a > 0`, and the exact quotient
otherwise. The source divides the counters with no guard
(src/index.ts:292 and src/index.ts:306). -/
def jsDivNat (a b : ℕ) : JsNumber :=
  if b = 0 then (if a = 0 then .nan else .infinity)
  else .num ((a : ℚ) / (b : ℚ))

/-! ## Typed pipeline records -/

/-- A dataset item as typed in the source (src/index.ts:14-19):
`expectedCategory` is optional. -/
structure DatasetItem where
  id : String
  text : String
  expectedCategory : Option String
deriving DecidableEq, Repr

/-- One decoded classification output (src/index.ts:26-31), keyed by
the echoed `custom_id`. -/
structure ClassificationResult where
  id : String
  category : String
  confidence : Option ℚ
  reasoning : Option String
deriving DecidableEq, Repr

/-- One evaluation record pushed onto `evaluationResults`
(src/index.ts:274-280). -/
structure EvaluationRecord where
  id : String
  expected : Option String
  predicted : String
  correct : Bool
  confidence : Option ℚ
deriving DecidableEq, Repr

/-! ## Poller: statuses, result-file decoding, one poll attempt -/

/-- The batch status enumeration used by the poll body
(src/index.ts:166 and src/index.ts:196). -/
inductive BatchStatus where
  | queued | running | completed | failed | expired | cancelled
deriving DecidableEq, Repr

/-- The string the provider reports for a status, as interpolated into
the thrown error messages. -/
def BatchStatus.statusString : BatchStatus → String
  | .queued => "queued"
  | .running => "running"
  | .completed => "completed"
  | .failed => "failed"
  | .expired => "expired"
  | .cancelled => "cancelled"

/-- One line of the completed result file, as seen through the two
`JSON.parse` calls of the decode loop (src/index.ts:174-185): the
envelope may fail to parse, or the embedded message content may fail to
parse, or both succeed and yield the classification payload. -/
inductive ResultLine where
  | badEnvelope : ResultLine
  | badContent : String → ResultLine
  | ok : String → String → Option ℚ → Option String → ResultLine
deriving DecidableEq, Repr

/-- A thrown JavaScript error. `nonRetryable` records whether the
error is a Cloudflare `NonRetryableError`; the source imports only
`cloudflare:workers` (src/index.ts:1-5) and constructs every error with
plain `new Error(...)`, so every error it throws has
`nonRetryable = false`. -/
structure JsError where
  nonRetryable : Bool
  message : String
deriving DecidableEq, Repr

/-- `new Error(msg)` as thrown throughout the source. -/
def jsError (msg : String) : JsError :=
  { nonRetryable := false, message := msg }

/-- The decode loop over the result-file lines (src/index.ts:171-185):
each line is parsed as an envelope and its message content parsed as
JSON; the first unparseable line throws a `SyntaxError` and the results
accumulated so far are discarded with it. -/
def decodeLines : List ResultLine → Except JsError (List ClassificationResult)
  | [] => .ok []
  | .badEnvelope :: _ => .error (jsError ("SyntaxError: Unexpected token in JSON at line envelope"))
  | .badContent _ :: _ => .error (jsError ("SyntaxError: Unexpected token in JSON at message content"))
  | .ok cid cat conf reas :: rest =>
    match decodeLines rest with
    | .error e => .error e
    | .ok results => .ok ({ id := cid, category := cat, confidence := conf, reasoning := reas } :: results)

/-- Token usage accounting built from `batch.request_counts?.completed`
(src/index.ts:190-194). -/
structure Usage where
  prompt_tokens : ℕ
  completion_tokens : ℕ
  total_tokens : ℕ
deriving DecidableEq, Repr

/-- The value returned by a successful poll attempt
(src/index.ts:187-195). -/
structure BatchResult where
  batchId : String
  results : List ClassificationResult
  usage : Usage
deriving DecidableEq, Repr

/-- What one status query observes: the reported status, the lines of
the output file (read only in the completed branch), and the completed
request count. -/
structure BatchSnapshot where
  batchId : String
  status : BatchStatus
  outputLines : List ResultLine
  completedCount : Option ℕ
deriving DecidableEq, Repr

/-- One poll attempt, the body of the `poll-batch-completion` step
(src/index.ts:159-202): on `completed`, decode the result file and
return the results with uniform usage counters; on `failed`, `expired`
or `cancelled`, throw an error naming the status; on any other status,
throw a still-processing error. Both throws build a plain `Error`. -/
def pollOnce (snap : BatchSnapshot) : Except JsError BatchResult :=
  if snap.status = .completed then
    match decodeLines snap.outputLines with
    | .error e => .error e
    | .ok results =>
      .ok { batchId := snap.batchId
            results := results
            usage := { prompt_tokens := snap.completedCount.getD 0
                       completion_tokens := snap.completedCount.getD 0
                       total_tokens := snap.completedCount.getD 0 } }
  else if snap.status = .failed ∨ snap.status = .expired ∨ snap.status = .cancelled then
    .error (jsError ("Batch processing failed with status: " ++ snap.status.statusString))
  else
    .error (jsError ("Batch still processing, status: " ++ snap.status.statusString))

/-! ## The Stage Executor retry loop around the poll body -/

instance {ε α : Type} [DecidableEq ε] [DecidableEq α] : DecidableEq (Except ε α)
  | .error a, .error b =>
    if h : a = b then isTrue (h ▸ rfl) else isFalse (fun hh => h (Except.error.inj hh))
  | .error _, .ok _ => isFalse (fun hh => Except.noConfusion hh)
  | .ok _, .error _ => isFalse (fun hh => Except.noConfusion hh)
  | .ok a, .ok b =>
    if h : a = b then isTrue (h ▸ rfl) else isFalse (fun hh => h (Except.ok.inj hh))

/-- The outcome of running the polling stage: how many attempts ran,
how many inter-attempt waits were taken, and the final result. -/
structure PollRun where
  attempts : ℕ
  waits : ℕ
  outcome : Except JsError BatchResult
deriving DecidableEq, Repr

/-- Modelled from the spec: the Stage Executor that runs the
`poll-batch-completion` step is Cloudflare `step.do`, which is not part
of this repository. Per the spec (sections 4.1 and 7) it re-invokes the
work after a fixed wait on each transient-retryable failure, up to the
retry limit of the policy, and a stage that exhausts its budget fails
the run; per the platform, a thrown error is transient-retryable
exactly when it is not a `NonRetryableError`, which the `nonRetryable`
flag of `JsError` records. `statusAt n` is the snapshot observed by
attempt `n`; `fuel` is the remaining retry budget (1440 in the source,
src/index.ts:152-157). -/
def pollFrom (statusAt : ℕ → BatchSnapshot) (attemptIdx : ℕ) : ℕ → PollRun
  | 0 =>
    { attempts := attemptIdx + 1, waits := attemptIdx, outcome := pollOnce (statusAt attemptIdx) }
  | fuel + 1 =>
    match pollOnce (statusAt attemptIdx) with
    | .ok r => { attempts := attemptIdx + 1, waits := attemptIdx, outcome := .ok r }
    | .error e =>
      if e.nonRetryable then
        { attempts := attemptIdx + 1, waits := attemptIdx, outcome := .error e }
      else
        pollFrom statusAt (attemptIdx + 1) fuel

/-- The whole polling stage with the retry policy of the source:
`retries.limit = 1440` with a constant 1-minute delay
(src/index.ts:152-157). -/
def runPoller (statusAt : ℕ → BatchSnapshot) : PollRun :=
  pollFrom statusAt 0 1440

/-! ## Evaluator/Recorder -/

/-- One Langfuse call made by the `evaluate-and-log-results` step, in
emission order. Payload fields not needed by any claim are reduced to
the identifying data: the item trace carries the join key and the
correctness flag (src/index.ts:226-244), the generation span the join
key (src/index.ts:247-272), and the summary trace the aggregate output
fields (src/index.ts:284-301). `flush` is `langfuse.flushAsync()`
(src/index.ts:303). -/
inductive TraceEvent where
  | itemTrace : String → Bool → TraceEvent
  | generationSpan : String → TraceEvent
  | summaryTrace : JsNumber → ℕ → ℕ → TraceEvent
  | flush : TraceEvent
deriving DecidableEq, Repr

/-- The mutable state of the evaluation loop (src/index.ts:213-215),
together with the ordered log of Langfuse calls made so far. -/
structure EvalState where
  evaluationResults : List EvaluationRecord
  correctPredictions : ℕ
  totalPredictions : ℕ
  traceLog : List TraceEvent
deriving DecidableEq, Repr

/-- One iteration of the evaluation loop (src/index.ts:217-281): find
the originating item by id with `Array.prototype.find`; skip entirely
when absent; otherwise compare `expectedCategory === result.category`
by exact string equality, bump the counters, emit the item trace and
generation span, and push the evaluation record. -/
def processResult (datasetItems : List DatasetItem) (st : EvalState)
    (result : ClassificationResult) : EvalState :=
  match datasetItems.find? (fun item => item.id == result.id) with
  | none => st
  | some originalItem =>
    let isCorrect : Bool := originalItem.expectedCategory == some result.category
    { evaluationResults := st.evaluationResults ++
        [{ id := result.id
           expected := originalItem.expectedCategory
           predicted := result.category
           correct := isCorrect
           confidence := result.confidence }]
      correctPredictions := st.correctPredictions + (if isCorrect then 1 else 0)
      totalPredictions := st.totalPredictions + 1
      traceLog := st.traceLog ++ [.itemTrace result.id isCorrect, .generationSpan result.id] }

/-- The initial loop state (src/index.ts:213-215): empty record list
and zeroed counters, no Langfuse call made yet. -/
def initState : EvalState :=
  { evaluationResults := [], correctPredictions := 0, totalPredictions := 0, traceLog := [] }

/-- The evaluation record one classification result contributes, when
its originating item is found: `none` exactly when the `find?` on
src/index.ts:218 misses. Used to describe the loop output as a
`filterMap` over the results. -/
def recOf (datasetItems : List DatasetItem) (r : ClassificationResult) :
    Option EvaluationRecord :=
  (datasetItems.find? (fun item => item.id == r.id)).map fun item =>
    { id := r.id
      expected := item.expectedCategory
      predicted := r.category
      correct := item.expectedCategory == some r.category
      confidence := r.confidence }

/-- The value returned by the `evaluate-and-log-results` step
(src/index.ts:305-310), extended with the trace log so the emission
order is visible. -/
structure EvaluationOutput where
  accuracy : JsNumber
  correctPredictions : ℕ
  totalPredictions : ℕ
  evaluationResults : List EvaluationRecord
  traceLog : List TraceEvent
deriving DecidableEq, Repr

/-- The `evaluate-and-log-results` step (src/index.ts:206-311): run the
loop over every classification result, then emit the summary trace with
the unguarded division `correctPredictions / totalPredictions`
(src/index.ts:292), await `flushAsync` (src/index.ts:303), and return
the same unguarded division (src/index.ts:306) with the counters and
records. -/
def evaluateAndLogResults (datasetItems : List DatasetItem)
    (results : List ClassificationResult) : EvaluationOutput :=
  let st := results.foldl (processResult datasetItems) initState
  let accuracy := jsDivNat st.correctPredictions st.totalPredictions
  { accuracy := accuracy
    correctPredictions := st.correctPredictions
    totalPredictions := st.totalPredictions
    evaluationResults := st.evaluationResults
    traceLog := st.traceLog ++
      [.summaryTrace accuracy st.correctPredictions st.totalPredictions, .flush] }

/-! ## Helper lemmas -/

/-- When `find?` misses, the loop iteration leaves the state unchanged
(the `continue` on src/index.ts:219). -/
theorem processResult_none {datasetItems : List DatasetItem} {st : EvalState}
    {r : ClassificationResult}
    (hf : datasetItems.find? (fun item => item.id == r.id) = none) :
    processResult datasetItems st r = st := by
  unfold processResult
  rw [hf]

/-- When `find?` hits, the loop iteration appends the record, bumps the
counters and emits the two trace calls. -/
theorem processResult_some {datasetItems : List DatasetItem} {st : EvalState}
    {r : ClassificationResult} {item : DatasetItem}
    (hf : datasetItems.find? (fun item => item.id == r.id) = some item) :
    processResult datasetItems st r =
      { evaluationResults := st.evaluationResults ++
          [{ id := r.id
             expected := item.expectedCategory
             predicted := r.category
             correct := item.expectedCategory == some r.category
             confidence := r.confidence }]
        correctPredictions := st.correctPredictions +
          (if (item.expectedCategory == some r.category : Bool) then 1 else 0)
        totalPredictions := st.totalPredictions + 1
        traceLog := st.traceLog ++
          [.itemTrace r.id (item.expectedCategory == some r.category),
           .generationSpan r.id] } := by
  unfold processResult
  rw [hf]

/-- Every trace event emitted by the evaluation loop is an item trace
or a generation span, or was in the log already. -/
theorem traceLog_foldl (datasetItems : List DatasetItem) :
    ∀ (results : List ClassificationResult) (st : EvalState) (e : TraceEvent),
      e ∈ (results.foldl (processResult datasetItems) st).traceLog →
      e ∈ st.traceLog ∨ (∃ id b, e = .itemTrace id b) ∨ ∃ id, e = .generationSpan id := by
  intro results
  induction results with
  | nil => exact fun st e he => Or.inl he
  | cons r rest ih =>
    intro st e he
    simp only [List.foldl_cons] at he
    rcases ih (processResult datasetItems st r) e he with h | h | h
    · cases hf : datasetItems.find? (fun item => item.id == r.id) with
      | none =>
        rw [processResult_none hf] at h
        exact Or.inl h
      | some item =>
        rw [processResult_some hf] at h
        simp only [List.mem_append, List.mem_cons, List.mem_singleton] at h
        rcases h with h | h | h
        · exact Or.inl h
        · exact Or.inr (Or.inl ⟨r.id, _, h⟩)
        · simp only [List.not_mem_nil, or_false] at h
          exact Or.inr (Or.inr ⟨r.id, h⟩)
    · exact Or.inr (Or.inl h)
    · exact Or.inr (Or.inr h)

/-- The records accumulated by the evaluation loop are exactly the
`filterMap` of `recOf` over the classification results. -/
theorem evalResults_foldl (datasetItems : List DatasetItem) :
    ∀ (results : List ClassificationResult) (st : EvalState),
      (results.foldl (processResult datasetItems) st).evaluationResults
        = st.evaluationResults ++ results.filterMap (recOf datasetItems) := by
  intro results
  induction results with
  | nil => intro st; simp
  | cons r rest ih =>
    intro st
    simp only [List.foldl_cons, List.filterMap_cons]
    cases hf : datasetItems.find? (fun item => item.id == r.id) with
    | none =>
      have hro : recOf datasetItems r = none := by
        unfold recOf; rw [hf]; rfl
      rw [processResult_none hf, hro, ih]
    | some item =>
      have hro : recOf datasetItems r =
          some { id := r.id
                 expected := item.expectedCategory
                 predicted := r.category
                 correct := item.expectedCategory == some r.category
                 confidence := r.confidence } := by
        unfold recOf; rw [hf]; rfl
      rw [processResult_some hf, hro, ih]
      simp [List.append_assoc]

/-- A record produced by `recOf` carries the id of the result that
produced it. -/
theorem recOf_id {datasetItems : List DatasetItem} {r : ClassificationResult}
    {rec : EvaluationRecord} (h : recOf datasetItems r = some rec) :
    rec.id = r.id := by
  unfold recOf at h
  cases hf : datasetItems.find? (fun item => item.id == r.id) with
  | none => rw [hf] at h; cases h
  | some item =>
    rw [hf] at h
    simp only [Option.map_some'] at h
    rw [← Option.some.injEq] at h
    cases h
    rfl

/-- Per id, the loop emits no more records than there are results
carrying that id. -/
theorem countP_recOf_le (datasetItems : List DatasetItem) (itemId : String) :
    ∀ results : List ClassificationResult,
      ((results.filterMap (recOf datasetItems)).countP (fun rec => rec.id == itemId))
        ≤ (results.map (fun r => r.id)).count itemId := by
  intro results
  induction results with
  | nil => simp
  | cons r rest ih =>
    simp only [List.filterMap_cons, List.map_cons]
    cases hf : recOf datasetItems r with
    | none =>
      rw [List.count_cons]
      exact le_trans ih (Nat.le_add_right _ _)
    | some rec =>
      have hid : rec.id = r.id := recOf_id hf
      rw [List.countP_cons, List.count_cons, hid]
      by_cases hcase : r.id = itemId
      · subst hcase
        simp only [beq_self_eq_true, if_true]
        exact Nat.add_le_add_right ih 1
      · have h1 : (r.id == itemId) = false := by
          simp [hcase]
        simp only [h1]
        simpa using ih

/-- If every poll attempt throws a retryable error, the retry loop
spins through its whole budget and ends with the error of the last
attempt. -/
theorem pollFrom_spin (statusAt : ℕ → BatchSnapshot)
    (h : ∀ n, ∃ msg, pollOnce (statusAt n) = .error (jsError msg)) :
    ∀ (fuel idx : ℕ),
      pollFrom statusAt idx fuel =
        { attempts := idx + fuel + 1
          waits := idx + fuel
          outcome := pollOnce (statusAt (idx + fuel)) } := by
  intro fuel
  induction fuel with
  | zero => intro idx; rfl
  | succ n ih =>
    intro idx
    obtain ⟨msg, hmsg⟩ := h idx
    have hstep : pollFrom statusAt idx (n + 1) = pollFrom statusAt (idx + 1) n := by
      rw [pollFrom, hmsg]
      rfl
    have harith : idx + 1 + n = idx + (n + 1) := by omega
    rw [hstep, ih (idx + 1), harith]

/-! ## Claim theorems -/

/-- C10: dataset normalization resolves `text` and `expectedCategory`
with a truthiness fallback (`item.input?.text || item.input`,
`item.expectedOutput?.category || item.expectedOutput`); in particular
an input object with an empty-string `text` field yields the whole
object, not the empty string. -/
theorem claim_c10_truthiness_fallback (entry : RawDatasetEntry) :
    (normalizeEntry entry).text
        = (if (entry.input.optChain "text").truthy then entry.input.optChain "text"
           else entry.input) ∧
    (normalizeEntry entry).expectedCategory
        = (if (entry.expectedOutput.optChain "category").truthy then
             entry.expectedOutput.optChain "category"
           else entry.expectedOutput) ∧
    (normalizeEntry { id := "x", input := .obj [("text", .str "")],
                      expectedOutput := .undefined, metadata := .undefined }).text
        = .obj [("text", .str "")] :=
  ⟨rfl, rfl, rfl⟩

/-- C1: refuted as stated; this theorem shows the code at the failing
input. With one loaded item and a result list that matches no item,
`totalPredictions` is `0`, yet the accuracy division is still
performed: the run returns `NaN` accuracy and logs it in the summary
trace, instead of guarding the division. -/
theorem claim_c1_div_unguarded_at_zero :
    (evaluateAndLogResults
        [{ id := "a", text := "some text", expectedCategory := some "true" }]
        [{ id := "b", category := "true", confidence := none, reasoning := none }]).totalPredictions
      = 0 ∧
    (evaluateAndLogResults
        [{ id := "a", text := "some text", expectedCategory := some "true" }]
        [{ id := "b", category := "true", confidence := none, reasoning := none }]).accuracy
      = JsNumber.nan ∧
    (evaluateAndLogResults
        [{ id := "a", text := "some text", expectedCategory := some "true" }]
        [{ id := "b", category := "true", confidence := none, reasoning := none }]).traceLog
      = [.summaryTrace JsNumber.nan 0 0, .flush] := by
  decide

/-- C3, counterexample: for a matched item with no `expectedCategory`,
the claim says no EvaluationRecord is produced and neither counter is
incremented; the code produces a record (with absent `expected` and
`correct = false`) and increments `totalPredictions`. -/
theorem claim_c3_counterexample :
    (evaluateAndLogResults
        [{ id := "a", text := "t", expectedCategory := none }]
        [{ id := "a", category := "x", confidence := none, reasoning := none }]).evaluationResults
      = [{ id := "a", expected := none, predicted := "x", correct := false, confidence := none }] ∧
    (evaluateAndLogResults
        [{ id := "a", text := "t", expectedCategory := none }]
        [{ id := "a", category := "x", confidence := none, reasoning := none }]).totalPredictions
      = 1 ∧
    (evaluateAndLogResults
        [{ id := "a", text := "t", expectedCategory := none }]
        [{ id := "a", category := "x", confidence := none, reasoning := none }]).correctPredictions
      = 0 := by
  decide

/-- C3, amended: for every ClassificationResult whose matching
DatasetItem has no `expectedCategory`, the evaluator still emits one
EvaluationRecord, with absent `expected` and `correct = false`;
`totalPredictions` is incremented and `correctPredictions` is not. -/
theorem claim_c3_no_ground_truth (datasetItems : List DatasetItem) (st : EvalState)
    (r : ClassificationResult) (item : DatasetItem)
    (hf : datasetItems.find? (fun it => it.id == r.id) = some item)
    (hnone : item.expectedCategory = none) :
    processResult datasetItems st r =
      { evaluationResults := st.evaluationResults ++
          [{ id := r.id, expected := none, predicted := r.category,
             correct := false, confidence := r.confidence }]
        correctPredictions := st.correctPredictions
        totalPredictions := st.totalPredictions + 1
        traceLog := st.traceLog ++ [.itemTrace r.id false, .generationSpan r.id] } := by
  rw [processResult_some hf, hnone]
  rfl

/-- Witness for C3 at a concrete input. -/
theorem claim_c3_witness :
    processResult [{ id := "a", text := "t", expectedCategory := none }]
      initState
      { id := "a", category := "x", confidence := none, reasoning := none } =
      { evaluationResults :=
          [{ id := "a", expected := none, predicted := "x", correct := false, confidence := none }]
        correctPredictions := 0
        totalPredictions := 1
        traceLog := [.itemTrace "a" false, .generationSpan "a"] } :=
  claim_c3_no_ground_truth
    [{ id := "a", text := "t", expectedCategory := none }]
    initState
    { id := "a", category := "x", confidence := none, reasoning := none }
    { id := "a", text := "t", expectedCategory := none }
    (by decide) rfl

/-- C5: a ClassificationResult whose id matches no loaded DatasetItem
contributes nothing: removing it from the results list leaves the whole
evaluation output (records, counters, accuracy, trace log) unchanged. -/
theorem claim_c5_unmatched_dropped (datasetItems : List DatasetItem)
    (pre post : List ClassificationResult) (r : ClassificationResult)
    (h : ∀ item ∈ datasetItems, item.id ≠ r.id) :
    evaluateAndLogResults datasetItems (pre ++ r :: post)
      = evaluateAndLogResults datasetItems (pre ++ post) := by
  have hf : datasetItems.find? (fun item => item.id == r.id) = none := by
    rw [List.find?_eq_none]
    intro item hmem
    simp [h item hmem]
  have hfold : (pre ++ r :: post).foldl (processResult datasetItems) initState
      = (pre ++ post).foldl (processResult datasetItems) initState := by
    rw [List.foldl_append, List.foldl_cons, processResult_none hf, List.foldl_append]
  simp only [evaluateAndLogResults, hfold]

/-- Witness for C5 at a concrete input. -/
theorem claim_c5_witness :
    evaluateAndLogResults
        [{ id := "a", text := "t", expectedCategory := some "true" }]
        ([] ++ { id := "b", category := "x", confidence := none, reasoning := none } :: [])
      = evaluateAndLogResults
        [{ id := "a", text := "t", expectedCategory := some "true" }]
        ([] ++ []) :=
  claim_c5_unmatched_dropped
    [{ id := "a", text := "t", expectedCategory := some "true" }]
    [] []
    { id := "b", category := "x", confidence := none, reasoning := none }
    (by decide)

/-- C8: correctness is exact string equality. With ground truth
`"true"`, the prediction `"true"` gives accuracy 1.0 with one correct
prediction out of one; `"false"` gives accuracy 0.0; the
case-variant `"True"` and whitespace-variant `" true"` also count as
incorrect. -/
theorem claim_c8_exact_equality :
    ((evaluateAndLogResults
        [{ id := "a", text := "some text", expectedCategory := some "true" }]
        [{ id := "a", category := "true", confidence := none, reasoning := none }]).accuracy
        = JsNumber.num 1 ∧
     (evaluateAndLogResults
        [{ id := "a", text := "some text", expectedCategory := some "true" }]
        [{ id := "a", category := "true", confidence := none, reasoning := none }]).correctPredictions
        = 1 ∧
     (evaluateAndLogResults
        [{ id := "a", text := "some text", expectedCategory := some "true" }]
        [{ id := "a", category := "true", confidence := none, reasoning := none }]).totalPredictions
        = 1) ∧
    ((evaluateAndLogResults
        [{ id := "a", text := "some text", expectedCategory := some "true" }]
        [{ id := "a", category := "false", confidence := none, reasoning := none }]).accuracy
        = JsNumber.num 0 ∧
     (evaluateAndLogResults
        [{ id := "a", text := "some text", expectedCategory := some "true" }]
        [{ id := "a", category := "false", confidence := none, reasoning := none }]).correctPredictions
        = 0 ∧
     (evaluateAndLogResults
        [{ id := "a", text := "some text", expectedCategory := some "true" }]
        [{ id := "a", category := "false", confidence := none, reasoning := none }]).totalPredictions
        = 1) ∧
    (evaluateAndLogResults
        [{ id := "a", text := "some text", expectedCategory := some "true" }]
        [{ id := "a", category := "True", confidence := none, reasoning := none }]).correctPredictions
      = 0 ∧
    (evaluateAndLogResults
        [{ id := "a", text := "some text", expectedCategory := some "true" }]
        [{ id := "a", category := " true", confidence := none, reasoning := none }]).correctPredictions
      = 0 := by
  refine ⟨⟨?_, by decide, by decide⟩, ⟨?_, by decide, by decide⟩, by decide, by decide⟩
  · show jsDivNat 1 1 = JsNumber.num 1
    unfold jsDivNat
    norm_num
  · show jsDivNat 0 1 = JsNumber.num 0
    unfold jsDivNat
    norm_num

/-- C2: refuted as stated; this theorem shows the code at the failing
input. The error thrown at a failure terminal does name the status, but
it is a plain retryable error (`nonRetryable = false`), so for the
status sequence `running` followed by `failed` forever, the retry loop
does not stop after 1 wait: it polls again and again until the
1440-retry budget is exhausted, finishing after 1441 attempts and 1440
waits. -/
theorem claim_c2_terminal_failure_retried :
    pollOnce { batchId := "batch_1", status := .failed, outputLines := [], completedCount := none }
      = .error (jsError ("Batch processing failed with status: failed")) ∧
    (jsError ("Batch processing failed with status: failed")).nonRetryable = false ∧
    runPoller (fun n => if n = 0
        then { batchId := "batch_1", status := .running, outputLines := [], completedCount := none }
        else { batchId := "batch_1", status := .failed, outputLines := [], completedCount := none })
      = { attempts := 1441, waits := 1440,
          outcome := .error (jsError ("Batch processing failed with status: failed")) } := by
  refine ⟨by decide, rfl, ?_⟩
  have h : ∀ n : ℕ, ∃ msg,
      pollOnce ((fun n => if n = 0
        then { batchId := "batch_1", status := .running, outputLines := [], completedCount := none }
        else ({ batchId := "batch_1", status := .failed, outputLines := [],
                completedCount := none } : BatchSnapshot)) n)
        = .error (jsError msg) := by
    intro n
    by_cases hn : n = 0
    · exact ⟨"Batch still processing, status: running", by simp [hn]; decide⟩
    · exact ⟨"Batch processing failed with status: failed", by simp [hn]; decide⟩
  rw [runPoller, pollFrom_spin _ h 1440 0]
  decide

/-- C4, counterexample: with a results list containing two results that
both carry the id of the same loaded item, the evaluator emits two
EvaluationRecords for that item, so a DatasetItem does not yield at
most one record for every possible results list. -/
theorem claim_c4_counterexample :
    ((evaluateAndLogResults
        [{ id := "a", text := "t", expectedCategory := some "true" }]
        [{ id := "a", category := "true", confidence := none, reasoning := none },
         { id := "a", category := "false", confidence := none, reasoning := none }]).evaluationResults.countP
      (fun rec => rec.id == "a")) = 2 := by
  decide

/-- C4, amended: when the ClassificationResult ids are pairwise
distinct (as when the provider echoes each `custom_id` once), every
DatasetItem yields at most one EvaluationRecord per run. -/
theorem claim_c4_nodup_at_most_one (datasetItems : List DatasetItem)
    (results : List ClassificationResult)
    (h : (results.map (fun r => r.id)).Nodup) (itemId : String) :
    ((evaluateAndLogResults datasetItems results).evaluationResults.countP
      (fun rec => rec.id == itemId)) ≤ 1 := by
  have hout : (evaluateAndLogResults datasetItems results).evaluationResults
      = (results.foldl (processResult datasetItems) initState).evaluationResults := rfl
  rw [hout, evalResults_foldl]
  have hinit : initState.evaluationResults = [] := rfl
  rw [hinit, List.nil_append]
  exact le_trans (countP_recOf_le datasetItems itemId results)
    (List.nodup_iff_count_le_one.mp h itemId)

/-- Witness for C4 at a concrete input. -/
theorem claim_c4_witness :
    ([{ id := "a", category := "true", confidence := none, reasoning := none },
      { id := "b", category := "x", confidence := none, reasoning := none }].map
        (fun r : ClassificationResult => r.id)).Nodup ∧
    ((evaluateAndLogResults
        [{ id := "a", text := "t", expectedCategory := some "true" }]
        [{ id := "a", category := "true", confidence := none, reasoning := none },
         { id := "b", category := "x", confidence := none, reasoning := none }]).evaluationResults.countP
      (fun rec => rec.id == "a")) ≤ 1 :=
  ⟨by decide,
   claim_c4_nodup_at_most_one
     [{ id := "a", text := "t", expectedCategory := some "true" }]
     [{ id := "a", category := "true", confidence := none, reasoning := none },
      { id := "b", category := "x", confidence := none, reasoning := none }]
     (by decide) "a"⟩

/-- C6: for the status sequence queued, running, completed, the poll
stage takes exactly 2 non-terminal waits, each non-terminal status
throwing a retryable still-processing error, and then resolves with the
decoded results. -/
theorem claim_c6_two_waits :
    pollOnce { batchId := "batch_1", status := .queued,
               outputLines := [.ok "a" "true" none none], completedCount := some 1 }
      = .error (jsError ("Batch still processing, status: queued")) ∧
    pollOnce { batchId := "batch_1", status := .running,
               outputLines := [.ok "a" "true" none none], completedCount := some 1 }
      = .error (jsError ("Batch still processing, status: running")) ∧
    runPoller (fun n =>
        { batchId := "batch_1",
          status := if n = 0 then .queued else if n = 1 then .running else .completed,
          outputLines := [.ok "a" "true" none none], completedCount := some 1 })
      = { attempts := 3, waits := 2,
          outcome := .ok
            { batchId := "batch_1"
              results := [{ id := "a", category := "true", confidence := none, reasoning := none }]
              usage := { prompt_tokens := 1, completion_tokens := 1, total_tokens := 1 } } } := by
  refine ⟨by decide, by decide, ?_⟩
  show pollFrom _ 0 1440 = _
  rw [pollFrom]
  decide

/-- C7: one unparseable line (envelope or payload) anywhere in the
result file makes the whole decode throw, so the completed-status poll
attempt yields an error rather than any partial list of
ClassificationResults. -/
theorem claim_c7_decode_error (pre post : List ResultLine) (bad : ResultLine)
    (hbad : bad = .badEnvelope ∨ ∃ s, bad = .badContent s)
    (snap : BatchSnapshot) (hstatus : snap.status = .completed)
    (hlines : snap.outputLines = pre ++ bad :: post) :
    ∃ e, decodeLines snap.outputLines = .error e ∧ pollOnce snap = .error e := by
  have hdec : ∃ e, decodeLines (pre ++ bad :: post) = .error e := by
    clear hlines hstatus
    induction pre with
    | nil =>
      rcases hbad with hb | ⟨s, hb⟩ <;> subst hb <;> exact ⟨_, rfl⟩
    | cons l rest ih =>
      cases l with
      | badEnvelope => exact ⟨_, rfl⟩
      | badContent s => exact ⟨_, rfl⟩
      | ok a b c d =>
        obtain ⟨e, he⟩ := ih
        refine ⟨e, ?_⟩
        simp only [List.cons_append, decodeLines, List.append_eq]
        rw [he]
  obtain ⟨e, he⟩ := hdec
  have he' : decodeLines snap.outputLines = .error e := by rw [hlines]; exact he
  refine ⟨e, he', ?_⟩
  unfold pollOnce
  rw [hstatus, he']
  rfl

/-- Witness for C7 at a concrete input. -/
theorem claim_c7_witness :
    ∃ e,
      decodeLines
        ({ batchId := "batch_1"
           status := .completed
           outputLines := [.ok "a" "x" none none, .badEnvelope]
           completedCount := some 2 } : BatchSnapshot).outputLines = .error e ∧
      pollOnce
        { batchId := "batch_1"
          status := .completed
          outputLines := [.ok "a" "x" none none, .badEnvelope]
          completedCount := some 2 } = .error e :=
  claim_c7_decode_error [.ok "a" "x" none none] [] .badEnvelope (Or.inl rfl)
    { batchId := "batch_1", status := .completed,
      outputLines := [.ok "a" "x" none none, .badEnvelope],
      completedCount := some 2 } rfl rfl

/-- C9: the trace log of every run ends with the summary trace followed
by the flush, and everything before them is a per-item trace call, so
the flush happens after every emitted trace entry and before the stage
returns. -/
theorem claim_c9_flush_last (datasetItems : List DatasetItem)
    (results : List ClassificationResult) :
    ∃ body a c t,
      (evaluateAndLogResults datasetItems results).traceLog
        = body ++ [TraceEvent.summaryTrace a c t, TraceEvent.flush] ∧
      ∀ e ∈ body,
        (∃ id b, e = TraceEvent.itemTrace id b) ∨ ∃ id, e = TraceEvent.generationSpan id := by
  refine ⟨(results.foldl (processResult datasetItems) initState).traceLog, _, _, _, rfl, ?_⟩
  intro e he
  rcases traceLog_foldl datasetItems results initState e he with h | h | h
  · exact absurd h (List.not_mem_nil e)
  · exact Or.inl h
  · exact Or.inr h

end CofactsWorker
